import Mathlib

/-!
Verification development for the `virtual-list` custom element
(`src/virtual-list.ts`).  The element's instance fields, its light-DOM
children, its shadow-DOM render surfaces (sizer / items container) and the
host-side scheduling bookkeeping are embedded as one explicit state record
`ElemState`; every method of `VirtualListElement` that the claims touch is
translated to a pure state-transition function on that record.  Engine
calls (`_willUpdate`, `setOptions`, `measure`) and teardown-handle
invocations are recorded in ghost counters so that "no recomputation
happened" can be stated as plain state equality.
-/

set_option autoImplicit false

namespace VirtualList

/-- The two virtualization axes (`type Orientation` in the source). -/
inductive Orientation where
  | vertical
  | horizontal
deriving DecidableEq

/-- A light-DOM node as the element sees it: an identity token (`nid`,
standing for JavaScript object identity), whether it is an element node
(`node.nodeType === Node.ELEMENT_NODE`), its reflected `id` attribute
(`none` when the attribute is absent; the DOM `id` property then reads as
the empty string), its `role` attribute, the two ARIA attributes the render
pass stamps, and the `data-estimate-size` attribute. -/
structure DNode where
  nid : Nat
  isElem : Bool
  idAttr : Option String
  role : Option String
  ariaSetsize : Option String
  ariaPosinset : Option String
  dataEstimate : Option String
deriving DecidableEq

/-- One entry of the engine's visible window (`VirtualItem`): the logical
index and the start offset.  (The engine also reports `size`/`end`, which
`#render` never reads; they are omitted.) -/
structure VirtualItem where
  index : Nat
  start : Rat
deriving DecidableEq

/-- The external virtualization engine handle, modelled by its outputs on
demand (`getVirtualItems()` / `getTotalSize()`) plus an identity token
`vid` standing for JavaScript object identity (`===`). -/
structure Engine where
  vid : Nat
  virtualItems : List VirtualItem
  totalSize : Rat
deriving DecidableEq

/-- Host environment capabilities: whether `requestAnimationFrame` and
`cancelAnimationFrame` are functions (`typeof ... === 'function'`). -/
structure Host where
  rafAvailable : Bool
  cafAvailable : Bool
deriving DecidableEq

/-- A CSS extent as the source writes it: either a pixel length
(`` `${n}px` ``), the literal `'100%'`, or never-written-yet. -/
inductive Extent where
  | px (q : Rat)
  | percent100
  | initial
deriving DecidableEq

/-- One `MutationRecord` of the light-DOM `MutationObserver` batch. -/
structure MutationRecord where
  addedNodes : List DNode
  removedNodes : List DNode
deriving DecidableEq

/-- The complete element state: the private fields of `VirtualListElement`,
the light-DOM child list, the observable shadow-DOM render state, and ghost
counters (`willUpdateCount`, `setOptionsCount`, `measureCount`,
`renderCount`, `cleanupInvocations`, `cancelLog`) recording calls into the
external engine and host. -/
structure ElemState where
  virtualizer : Option Engine
  virtualizerCleanup : Bool
  items : List DNode
  scrollElement : Bool
  sizerElement : Bool
  itemsContainer : Bool
  orientation : Orientation
  estimateSize : Rat
  overscan : Rat
  paddingStart : Rat
  paddingEnd : Rat
  scrollPaddingStart : Rat
  scrollPaddingEnd : Rat
  rafId : Option Nat
  lightChildren : List DNode
  itemsContainerChildren : List Nat
  sizerWidth : Extent
  sizerHeight : Extent
  transformX : Rat
  transformY : Rat
  nextRafId : Nat
  microtasksPending : Nat
  cancelLog : List Nat
  cleanupInvocations : Nat
  willUpdateCount : Nat
  setOptionsCount : Nat
  measureCount : Nat
  renderCount : Nat
deriving DecidableEq

/-- Modelled from the host platform: JavaScript `Number(string)` conversion
restricted to the string shapes this element meets — the empty string
converts to `0`, an optional sign followed by decimal digits (with an
optional fraction part) converts to that value, and everything else is
`NaN`, modelled as `none`.  (Exponent, hex and whitespace forms are not
modelled; no claim depends on them.) -/
def digitsToNat (cs : List Char) : Nat :=
  cs.foldl (fun a c => a * 10 + (c.toNat - Char.toNat '0')) 0

/-- All characters are decimal digits. -/
def allDigits (cs : List Char) : Bool :=
  cs.all Char.isDigit

/-- Split a character list at the first occurrence of `c`: the part before
it, and the part after it when it occurs at all. -/
def splitFirst (c : Char) : List Char → List Char × Option (List Char)
  | [] => ([], none)
  | x :: xs =>
    if x = c then ([], some xs)
    else
      let r := splitFirst c xs
      (x :: r.1, r.2)

/-- Unsigned part of the `Number()` model: digits with an optional single
decimal point; at least one digit overall. -/
def parseUnsignedJS (body : List Char) : Option Rat :=
  match splitFirst '.' body with
  | (ip, none) =>
    if ip.length > 0 && allDigits ip then
      some ((digitsToNat ip : Nat) : Rat)
    else none
  | (ip, some fp) =>
    if (ip.length > 0 || fp.length > 0) && !fp.contains '.'
        && allDigits ip && allDigits fp then
      some (((digitsToNat ip : Nat) : Rat)
        + ((digitsToNat fp : Nat) : Rat) / ((10 : Rat) ^ fp.length))
    else none

/-- JavaScript `Number(string)` model; see `digitsToNat` for scope. -/
def parseJSNumber (s : String) : Option Rat :=
  match s.data with
  | [] => some 0
  | c :: cs =>
    if c = '-' then (parseUnsignedJS cs).map (fun q => -q)
    else if c = '+' then parseUnsignedJS cs
    else parseUnsignedJS (c :: cs)

/-- The observed numeric attribute names (`NUMBER_ATTRIBUTES`). -/
def NUMBER_ATTRIBUTES : List String :=
  ["overscan", "estimate-size", "padding-start", "padding-end",
   "scroll-padding-start", "scroll-padding-end"]

/-- `#fallbackForAttribute`: default for each numeric attribute. -/
def fallbackForAttribute (name : String) : Rat :=
  if name = "estimate-size" then 48
  else if name = "overscan" then 2
  else 0

/-- Remove the first node with the given identity from a node list; models
both `this.removeChild(node)` and `#items.splice(#items.indexOf(el), 1)`,
which match by object identity. -/
def removeFirstByNid (l : List DNode) (n : Nat) : List DNode :=
  match l with
  | [] => []
  | x :: xs => if x.nid = n then xs else x :: removeFirstByNid xs n

/-- `element.setAttribute('role', 'listitem')` guarded by
`!element.hasAttribute('role')`. -/
def assignListitemRole (n : DNode) : DNode :=
  if n.role = none then { n with role := some ("listitem") } else n

/-- The identity tokens of a node list. -/
def nidsOf (l : List DNode) : List Nat :=
  l.map (fun n => n.nid)

/-- `#scheduleMeasurement`: with `requestAnimationFrame` available, cancel
any pending frame callback and schedule a fresh one; otherwise fall back to
`queueMicrotask`.  No-op when the virtualizer or items container is
missing. -/
def scheduleMeasurement (h : Host) (st : ElemState) : ElemState :=
  if st.virtualizer.isNone || !st.itemsContainer then st
  else if h.rafAvailable then
    match st.rafId with
    | some k =>
      { st with cancelLog := st.cancelLog ++ [k],
                rafId := some st.nextRafId,
                nextRafId := st.nextRafId + 1 }
    | none =>
      { st with rafId := some st.nextRafId,
                nextRafId := st.nextRafId + 1 }
  else
    { st with microtasksPending := st.microtasksPending + 1 }

/-- How many scheduled measurement callbacks are currently pending (one per
live animation-frame handle plus every queued microtask). -/
def pendingMeasurements (st : ElemState) : Nat :=
  (if st.rafId.isSome then 1 else 0) + st.microtasksPending

/-- `String(#items.length)` / `String(index + 1)` stamping of one item. -/
def stampAria (len idx : Nat) (it : DNode) : DNode :=
  { it with ariaSetsize := some (toString len),
            ariaPosinset := some (toString (idx + 1)) }

/-- One iteration of the fragment-building loop in `#render`: look the
virtual item's logical index up in the registry, skip it when absent,
otherwise stamp the ARIA attributes and append the element to the
fragment. -/
def renderStep (acc : List DNode × List Nat) (vi : VirtualItem) :
    List DNode × List Nat :=
  match acc.1[vi.index]? with
  | none => acc
  | some it =>
    (acc.1.set vi.index (stampAria acc.1.length vi.index it), acc.2 ++ [it.nid])

/-- Start offset of the first visible item (`firstStart` in `#render`);
zero when the window is empty. -/
def firstStartOf (vis : List VirtualItem) : Rat :=
  match vis with
  | [] => 0
  | vi :: _ => vi.start

/-- Sizer-extent update of `#render`: the active axis gets the engine's
total extent, the cross axis gets `'100%'`. -/
def applySizer (v : Engine) (st : ElemState) : ElemState :=
  if st.orientation = Orientation.horizontal then
    { st with sizerWidth := Extent.px v.totalSize, sizerHeight := Extent.percent100 }
  else
    { st with sizerHeight := Extent.px v.totalSize, sizerWidth := Extent.percent100 }

/-- Transform update of `#render`: `translate3d` with the first visible
start offset on the active axis and `0` on the inactive axis. -/
def applyTransform (fs : Rat) (st : ElemState) : ElemState :=
  if st.orientation = Orientation.horizontal then
    { st with transformX := fs, transformY := 0 }
  else
    { st with transformX := 0, transformY := fs }

/-- `#render`: no-op without virtualizer / containers; otherwise update the
sizer, build the fragment (stamping ARIA attributes), replace the items
container's children, update the transform, and schedule a measurement. -/
def render (h : Host) (st : ElemState) : ElemState :=
  match st.virtualizer with
  | none => st
  | some v =>
    if !st.itemsContainer || !st.sizerElement then st
    else
      let st1 := applySizer v { st with renderCount := st.renderCount + 1 }
      let lp := v.virtualItems.foldl renderStep (st1.items, [])
      let st2 := { st1 with items := lp.1, itemsContainerChildren := lp.2 }
      let st3 := applyTransform (firstStartOf v.virtualItems) st2
      scheduleMeasurement h st3

/-- `#updateVirtualizerOptions`: no-op without a virtualizer, else
`_willUpdate`, `setOptions`, `measure` (ghost counters) and a render. -/
def updateVirtualizerOptions (h : Host) (st : ElemState) : ElemState :=
  match st.virtualizer with
  | none => st
  | some _ =>
    let st1 := { st with willUpdateCount := st.willUpdateCount + 1 }
    let st2 := { st1 with setOptionsCount := st1.setOptionsCount + 1 }
    let st3 := { st2 with measureCount := st2.measureCount + 1 }
    render h st3

/-- `attributeChangedCallback`: identical old/new values return early;
`orientation` maps anything but `'horizontal'` to vertical; numeric
attributes parse via `Number()`, fall back to the attribute default when
not finite, with overscan floored and clamped at zero and the paddings
clamped at zero; then options are recomputed. -/
def attributeChangedCallback (h : Host) (name : String)
    (oldValue newValue : Option String) (st : ElemState) : ElemState :=
  if oldValue = newValue then st
  else
    let st1 :=
      if name = "orientation" then
        { st with orientation :=
            if newValue = some ("horizontal") then Orientation.horizontal
            else Orientation.vertical }
      else if name ∈ NUMBER_ATTRIBUTES then
        let parsed : Option Rat :=
          match newValue with
          | some s => parseJSNumber s
          | none => none
        let next := parsed.getD (fallbackForAttribute name)
        if name = "estimate-size" then { st with estimateSize := next }
        else if name = "overscan" then
          { st with overscan := ((max 0 (Int.floor next) : Int) : Rat) }
        else if name = "padding-start" then { st with paddingStart := max 0 next }
        else if name = "padding-end" then { st with paddingEnd := max 0 next }
        else if name = "scroll-padding-start" then
          { st with scrollPaddingStart := max 0 next }
        else if name = "scroll-padding-end" then
          { st with scrollPaddingEnd := max 0 next }
        else st
      else st
    updateVirtualizerOptions h st1

/-- Possible results of the `getItemKey` option: a string key (the DOM `id`
property) or the numeric index. -/
inductive ItemKey where
  | str (s : String)
  | num (n : Nat)
deriving DecidableEq

/-- `getItemKey: (index) => { const item = this.#items[index]; return
item?.id ?? index; }` — when the item exists its `id` property is a string
(the empty string when the attribute is absent), so the nullish fallback to
`index` fires only for an out-of-range index. -/
def getItemKey (items : List DNode) (index : Nat) : ItemKey :=
  match items[index]? with
  | some it => ItemKey.str (it.idAttr.getD (""))
  | none => ItemKey.num index

/-- The `onChange` option: render only when the notifying instance is
identically the currently retained one (`instance === this.#virtualizer`).
-/
def onChange (h : Host) (instanceV : Engine) (st : ElemState) : ElemState :=
  if st.virtualizer = some instanceV then render h st else st

/-- `#teardownVirtualizer`: cancel a pending frame callback when the host
has `cancelAnimationFrame`, invoke the retained cleanup handle once and
drop it, and discard the engine instance. -/
def teardownVirtualizer (h : Host) (st : ElemState) : ElemState :=
  let st1 :=
    match st.rafId with
    | some k =>
      if h.cafAvailable then
        { st with rafId := none, cancelLog := st.cancelLog ++ [k] }
      else st
    | none => st
  let st2 :=
    if st1.virtualizerCleanup then
      { st1 with virtualizerCleanup := false,
                 cleanupInvocations := st1.cleanupInvocations + 1 }
    else st1
  { st2 with virtualizer := none }

/-- One iteration of the `#captureChildren` loop over the snapshot of
`this.childNodes`: an element node gets the `listitem` role when it lacks
one and joins the captured list; every walked node is removed from the
light DOM. -/
def captureStep (a : List DNode × ElemState) (n : DNode) : List DNode × ElemState :=
  let itemsAcc := if n.isElem then a.1 ++ [assignListitemRole n] else a.1
  (itemsAcc,
   { a.2 with lightChildren := removeFirstByNid a.2.lightChildren n.nid })

/-- `#captureChildren`: walk the current child nodes in document order,
keep the element nodes (assigning the `listitem` role to those lacking a
role), remove every walked node from the light DOM, and install the kept
elements as the registry. -/
def captureChildren (st : ElemState) : ElemState :=
  let nodes := st.lightChildren
  let acc := nodes.foldl captureStep ([], st)
  { acc.2 with items := acc.1 }

/-- Accumulator of the mutation-reconciliation loop: the added elements
collected for the deferred addition phase, the `changed` flag, and the
evolving element state. -/
structure ReconcileAcc where
  additions : List DNode
  changed : Bool
  state : ElemState
deriving DecidableEq

/-- `mutation.addedNodes.forEach(...)`: collect added element nodes for the
deferred addition phase; detach added non-element nodes still parented
here. -/
def addedNodeStep (a : ReconcileAcc) (n : DNode) : ReconcileAcc :=
  if n.isElem then { a with additions := a.additions ++ [n] }
  else if n.nid ∈ nidsOf a.state.lightChildren then
    { a with state :=
        { a.state with lightChildren := removeFirstByNid a.state.lightChildren n.nid } }
  else a

/-- `mutation.removedNodes.forEach(...)`: splice a removed element out of
the registry when it is tracked there (identity match), flagging the
change. -/
def removedNodeStep (a : ReconcileAcc) (n : DNode) : ReconcileAcc :=
  if n.isElem && n.nid ∈ nidsOf a.state.items then
    { a with changed := true,
             state := { a.state with items := removeFirstByNid a.state.items n.nid } }
  else a

/-- One `MutationRecord` of the loop: added nodes first, removed nodes
second, exactly as the source iterates them. -/
def processMutationRecord (a : ReconcileAcc) (m : MutationRecord) : ReconcileAcc :=
  m.removedNodes.foldl removedNodeStep (m.addedNodes.foldl addedNodeStep a)

/-- Deferred addition of one collected element: assign the `listitem` role
when absent, detach it from the light DOM when still parented here, and
append it to the registry. -/
def pushAdditionStep (s : ElemState) (n : DNode) : ElemState :=
  let n1 := assignListitemRole n
  let s1 :=
    if n1.nid ∈ nidsOf s.lightChildren then
      { s with lightChildren := removeFirstByNid s.lightChildren n1.nid }
    else s
  { s1 with items := s1.items ++ [n1] }

/-- `#handleLightDomMutations`: walk the batch collecting added elements
and applying removals, then append all collected additions, and recompute
options when anything changed. -/
def handleLightDomMutations (h : Host) (muts : List MutationRecord)
    (st : ElemState) : ElemState :=
  let acc := muts.foldl processMutationRecord
    { additions := [], changed := false, state := st }
  let afterAdds :=
    if acc.additions.length > 0 then
      (true, acc.additions.foldl pushAdditionStep acc.state)
    else
      (acc.changed, acc.state)
  if afterAdds.1 then updateVirtualizerOptions h afterAdds.2 else afterAdds.2

/-! ### Concrete fixtures used by witnesses and counterexamples -/

/-- A live engine instance reporting a two-item visible window. -/
def engA : Engine :=
  { vid := 1,
    virtualItems := [{ index := 0, start := 0 }, { index := 1, start := 24 }],
    totalSize := 96 }

/-- A second, distinct engine instance (e.g. from a later activation). -/
def engB : Engine := { vid := 2, virtualItems := [], totalSize := 0 }

/-- A captured element with an explicit `id` attribute. -/
def itemA : DNode :=
  { nid := 10, isElem := true, idAttr := some ("first"),
    role := some ("listitem"), ariaSetsize := none, ariaPosinset := none,
    dataEstimate := none }

/-- A captured element without an `id` attribute. -/
def itemB : DNode :=
  { nid := 11, isElem := true, idAttr := none, role := some ("listitem"),
    ariaSetsize := none, ariaPosinset := none, dataEstimate := none }

/-- A host with both paint-scheduling primitives available. -/
def hostBoth : Host := { rafAvailable := true, cafAvailable := true }

/-- A host without the paint-scheduling primitives (microtask fallback). -/
def hostNone : Host := { rafAvailable := false, cafAvailable := false }

/-- A mounted element: engine `engA` live, cleanup handle retained, both
render surfaces built, two registry items, default configuration. -/
def baseState : ElemState :=
  { virtualizer := some engA, virtualizerCleanup := true,
    items := [itemA, itemB], scrollElement := true, sizerElement := true,
    itemsContainer := true, orientation := Orientation.vertical,
    estimateSize := 48, overscan := 2, paddingStart := 0, paddingEnd := 0,
    scrollPaddingStart := 0, scrollPaddingEnd := 0, rafId := none,
    lightChildren := [], itemsContainerChildren := [],
    sizerWidth := Extent.initial, sizerHeight := Extent.initial,
    transformX := 0, transformY := 0, nextRafId := 0,
    microtasksPending := 0, cancelLog := [], cleanupInvocations := 0,
    willUpdateCount := 0, setOptionsCount := 0, measureCount := 0,
    renderCount := 0 }

/-- A brand-new element (no role, no id), never seen by the registry. -/
def freshItem : DNode :=
  { nid := 99, isElem := true, idAttr := none, role := none,
    ariaSetsize := none, ariaPosinset := none, dataEstimate := none }

/-- Mutation record delivering `freshItem` as an added node. -/
def addRec : MutationRecord := { addedNodes := [freshItem], removedNodes := [] }

/-- Mutation record delivering `freshItem` as a removed node. -/
def removeRec : MutationRecord := { addedNodes := [], removedNodes := [freshItem] }

/-- One observer batch that adds and then removes the same element. -/
def addRemoveBatch : List MutationRecord := [addRec, removeRec]

/-- Decidable check that the registry entry at index `i` carries exactly
the ARIA attributes a render pass over a registry of length `len` stamps:
`aria-setsize` = `len`, `aria-posinset` = `i + 1`. -/
def stampedOK (l : List DNode) (len i : Nat) : Bool :=
  match l[i]? with
  | some it =>
    it.ariaSetsize == some (toString len) && it.ariaPosinset == some (toString (i + 1))
  | none => false

/-- Propositional form of `stampedOK`. -/
def StampedAt (l : List DNode) (len i : Nat) : Prop :=
  ∃ it, l[i]? = some it ∧ it.ariaSetsize = some (toString len)
    ∧ it.ariaPosinset = some (toString (i + 1))

/-! ### Helper lemmas -/

@[simp]
theorem applySizer_virtualizer (v : Engine) (st : ElemState) :
    (applySizer v st).virtualizer = st.virtualizer := by
  unfold applySizer
  split <;> rfl

@[simp]
theorem applySizer_virtualizerCleanup (v : Engine) (st : ElemState) :
    (applySizer v st).virtualizerCleanup = st.virtualizerCleanup := by
  unfold applySizer
  split <;> rfl

@[simp]
theorem applySizer_items (v : Engine) (st : ElemState) :
    (applySizer v st).items = st.items := by
  unfold applySizer
  split <;> rfl

@[simp]
theorem applySizer_scrollElement (v : Engine) (st : ElemState) :
    (applySizer v st).scrollElement = st.scrollElement := by
  unfold applySizer
  split <;> rfl

@[simp]
theorem applySizer_sizerElement (v : Engine) (st : ElemState) :
    (applySizer v st).sizerElement = st.sizerElement := by
  unfold applySizer
  split <;> rfl

@[simp]
theorem applySizer_itemsContainer (v : Engine) (st : ElemState) :
    (applySizer v st).itemsContainer = st.itemsContainer := by
  unfold applySizer
  split <;> rfl

@[simp]
theorem applySizer_orientation (v : Engine) (st : ElemState) :
    (applySizer v st).orientation = st.orientation := by
  unfold applySizer
  split <;> rfl

@[simp]
theorem applySizer_estimateSize (v : Engine) (st : ElemState) :
    (applySizer v st).estimateSize = st.estimateSize := by
  unfold applySizer
  split <;> rfl

@[simp]
theorem applySizer_overscan (v : Engine) (st : ElemState) :
    (applySizer v st).overscan = st.overscan := by
  unfold applySizer
  split <;> rfl

@[simp]
theorem applySizer_paddingStart (v : Engine) (st : ElemState) :
    (applySizer v st).paddingStart = st.paddingStart := by
  unfold applySizer
  split <;> rfl

@[simp]
theorem applySizer_paddingEnd (v : Engine) (st : ElemState) :
    (applySizer v st).paddingEnd = st.paddingEnd := by
  unfold applySizer
  split <;> rfl

@[simp]
theorem applySizer_scrollPaddingStart (v : Engine) (st : ElemState) :
    (applySizer v st).scrollPaddingStart = st.scrollPaddingStart := by
  unfold applySizer
  split <;> rfl

@[simp]
theorem applySizer_scrollPaddingEnd (v : Engine) (st : ElemState) :
    (applySizer v st).scrollPaddingEnd = st.scrollPaddingEnd := by
  unfold applySizer
  split <;> rfl

@[simp]
theorem applySizer_rafId (v : Engine) (st : ElemState) :
    (applySizer v st).rafId = st.rafId := by
  unfold applySizer
  split <;> rfl

@[simp]
theorem applySizer_lightChildren (v : Engine) (st : ElemState) :
    (applySizer v st).lightChildren = st.lightChildren := by
  unfold applySizer
  split <;> rfl

@[simp]
theorem applySizer_itemsContainerChildren (v : Engine) (st : ElemState) :
    (applySizer v st).itemsContainerChildren = st.itemsContainerChildren := by
  unfold applySizer
  split <;> rfl

@[simp]
theorem applySizer_transformX (v : Engine) (st : ElemState) :
    (applySizer v st).transformX = st.transformX := by
  unfold applySizer
  split <;> rfl

@[simp]
theorem applySizer_transformY (v : Engine) (st : ElemState) :
    (applySizer v st).transformY = st.transformY := by
  unfold applySizer
  split <;> rfl

@[simp]
theorem applySizer_nextRafId (v : Engine) (st : ElemState) :
    (applySizer v st).nextRafId = st.nextRafId := by
  unfold applySizer
  split <;> rfl

@[simp]
theorem applySizer_microtasksPending (v : Engine) (st : ElemState) :
    (applySizer v st).microtasksPending = st.microtasksPending := by
  unfold applySizer
  split <;> rfl

@[simp]
theorem applySizer_cancelLog (v : Engine) (st : ElemState) :
    (applySizer v st).cancelLog = st.cancelLog := by
  unfold applySizer
  split <;> rfl

@[simp]
theorem applySizer_cleanupInvocations (v : Engine) (st : ElemState) :
    (applySizer v st).cleanupInvocations = st.cleanupInvocations := by
  unfold applySizer
  split <;> rfl

@[simp]
theorem applySizer_willUpdateCount (v : Engine) (st : ElemState) :
    (applySizer v st).willUpdateCount = st.willUpdateCount := by
  unfold applySizer
  split <;> rfl

@[simp]
theorem applySizer_setOptionsCount (v : Engine) (st : ElemState) :
    (applySizer v st).setOptionsCount = st.setOptionsCount := by
  unfold applySizer
  split <;> rfl

@[simp]
theorem applySizer_measureCount (v : Engine) (st : ElemState) :
    (applySizer v st).measureCount = st.measureCount := by
  unfold applySizer
  split <;> rfl

@[simp]
theorem applySizer_renderCount (v : Engine) (st : ElemState) :
    (applySizer v st).renderCount = st.renderCount := by
  unfold applySizer
  split <;> rfl

@[simp]
theorem applyTransform_virtualizer (fs : Rat) (st : ElemState) :
    (applyTransform fs st).virtualizer = st.virtualizer := by
  unfold applyTransform
  split <;> rfl

@[simp]
theorem applyTransform_virtualizerCleanup (fs : Rat) (st : ElemState) :
    (applyTransform fs st).virtualizerCleanup = st.virtualizerCleanup := by
  unfold applyTransform
  split <;> rfl

@[simp]
theorem applyTransform_items (fs : Rat) (st : ElemState) :
    (applyTransform fs st).items = st.items := by
  unfold applyTransform
  split <;> rfl

@[simp]
theorem applyTransform_scrollElement (fs : Rat) (st : ElemState) :
    (applyTransform fs st).scrollElement = st.scrollElement := by
  unfold applyTransform
  split <;> rfl

@[simp]
theorem applyTransform_sizerElement (fs : Rat) (st : ElemState) :
    (applyTransform fs st).sizerElement = st.sizerElement := by
  unfold applyTransform
  split <;> rfl

@[simp]
theorem applyTransform_itemsContainer (fs : Rat) (st : ElemState) :
    (applyTransform fs st).itemsContainer = st.itemsContainer := by
  unfold applyTransform
  split <;> rfl

@[simp]
theorem applyTransform_orientation (fs : Rat) (st : ElemState) :
    (applyTransform fs st).orientation = st.orientation := by
  unfold applyTransform
  split <;> rfl

@[simp]
theorem applyTransform_estimateSize (fs : Rat) (st : ElemState) :
    (applyTransform fs st).estimateSize = st.estimateSize := by
  unfold applyTransform
  split <;> rfl

@[simp]
theorem applyTransform_overscan (fs : Rat) (st : ElemState) :
    (applyTransform fs st).overscan = st.overscan := by
  unfold applyTransform
  split <;> rfl

@[simp]
theorem applyTransform_paddingStart (fs : Rat) (st : ElemState) :
    (applyTransform fs st).paddingStart = st.paddingStart := by
  unfold applyTransform
  split <;> rfl

@[simp]
theorem applyTransform_paddingEnd (fs : Rat) (st : ElemState) :
    (applyTransform fs st).paddingEnd = st.paddingEnd := by
  unfold applyTransform
  split <;> rfl

@[simp]
theorem applyTransform_scrollPaddingStart (fs : Rat) (st : ElemState) :
    (applyTransform fs st).scrollPaddingStart = st.scrollPaddingStart := by
  unfold applyTransform
  split <;> rfl

@[simp]
theorem applyTransform_scrollPaddingEnd (fs : Rat) (st : ElemState) :
    (applyTransform fs st).scrollPaddingEnd = st.scrollPaddingEnd := by
  unfold applyTransform
  split <;> rfl

@[simp]
theorem applyTransform_rafId (fs : Rat) (st : ElemState) :
    (applyTransform fs st).rafId = st.rafId := by
  unfold applyTransform
  split <;> rfl

@[simp]
theorem applyTransform_lightChildren (fs : Rat) (st : ElemState) :
    (applyTransform fs st).lightChildren = st.lightChildren := by
  unfold applyTransform
  split <;> rfl

@[simp]
theorem applyTransform_itemsContainerChildren (fs : Rat) (st : ElemState) :
    (applyTransform fs st).itemsContainerChildren = st.itemsContainerChildren := by
  unfold applyTransform
  split <;> rfl

@[simp]
theorem applyTransform_sizerWidth (fs : Rat) (st : ElemState) :
    (applyTransform fs st).sizerWidth = st.sizerWidth := by
  unfold applyTransform
  split <;> rfl

@[simp]
theorem applyTransform_sizerHeight (fs : Rat) (st : ElemState) :
    (applyTransform fs st).sizerHeight = st.sizerHeight := by
  unfold applyTransform
  split <;> rfl

@[simp]
theorem applyTransform_nextRafId (fs : Rat) (st : ElemState) :
    (applyTransform fs st).nextRafId = st.nextRafId := by
  unfold applyTransform
  split <;> rfl

@[simp]
theorem applyTransform_microtasksPending (fs : Rat) (st : ElemState) :
    (applyTransform fs st).microtasksPending = st.microtasksPending := by
  unfold applyTransform
  split <;> rfl

@[simp]
theorem applyTransform_cancelLog (fs : Rat) (st : ElemState) :
    (applyTransform fs st).cancelLog = st.cancelLog := by
  unfold applyTransform
  split <;> rfl

@[simp]
theorem applyTransform_cleanupInvocations (fs : Rat) (st : ElemState) :
    (applyTransform fs st).cleanupInvocations = st.cleanupInvocations := by
  unfold applyTransform
  split <;> rfl

@[simp]
theorem applyTransform_willUpdateCount (fs : Rat) (st : ElemState) :
    (applyTransform fs st).willUpdateCount = st.willUpdateCount := by
  unfold applyTransform
  split <;> rfl

@[simp]
theorem applyTransform_setOptionsCount (fs : Rat) (st : ElemState) :
    (applyTransform fs st).setOptionsCount = st.setOptionsCount := by
  unfold applyTransform
  split <;> rfl

@[simp]
theorem applyTransform_measureCount (fs : Rat) (st : ElemState) :
    (applyTransform fs st).measureCount = st.measureCount := by
  unfold applyTransform
  split <;> rfl

@[simp]
theorem applyTransform_renderCount (fs : Rat) (st : ElemState) :
    (applyTransform fs st).renderCount = st.renderCount := by
  unfold applyTransform
  split <;> rfl

@[simp]
theorem scheduleMeasurement_virtualizer (h : Host) (st : ElemState) :
    (scheduleMeasurement h st).virtualizer = st.virtualizer := by
  unfold scheduleMeasurement
  repeat' split
  all_goals rfl

@[simp]
theorem scheduleMeasurement_virtualizerCleanup (h : Host) (st : ElemState) :
    (scheduleMeasurement h st).virtualizerCleanup = st.virtualizerCleanup := by
  unfold scheduleMeasurement
  repeat' split
  all_goals rfl

@[simp]
theorem scheduleMeasurement_items (h : Host) (st : ElemState) :
    (scheduleMeasurement h st).items = st.items := by
  unfold scheduleMeasurement
  repeat' split
  all_goals rfl

@[simp]
theorem scheduleMeasurement_scrollElement (h : Host) (st : ElemState) :
    (scheduleMeasurement h st).scrollElement = st.scrollElement := by
  unfold scheduleMeasurement
  repeat' split
  all_goals rfl

@[simp]
theorem scheduleMeasurement_sizerElement (h : Host) (st : ElemState) :
    (scheduleMeasurement h st).sizerElement = st.sizerElement := by
  unfold scheduleMeasurement
  repeat' split
  all_goals rfl

@[simp]
theorem scheduleMeasurement_itemsContainer (h : Host) (st : ElemState) :
    (scheduleMeasurement h st).itemsContainer = st.itemsContainer := by
  unfold scheduleMeasurement
  repeat' split
  all_goals rfl

@[simp]
theorem scheduleMeasurement_orientation (h : Host) (st : ElemState) :
    (scheduleMeasurement h st).orientation = st.orientation := by
  unfold scheduleMeasurement
  repeat' split
  all_goals rfl

@[simp]
theorem scheduleMeasurement_estimateSize (h : Host) (st : ElemState) :
    (scheduleMeasurement h st).estimateSize = st.estimateSize := by
  unfold scheduleMeasurement
  repeat' split
  all_goals rfl

@[simp]
theorem scheduleMeasurement_overscan (h : Host) (st : ElemState) :
    (scheduleMeasurement h st).overscan = st.overscan := by
  unfold scheduleMeasurement
  repeat' split
  all_goals rfl

@[simp]
theorem scheduleMeasurement_paddingStart (h : Host) (st : ElemState) :
    (scheduleMeasurement h st).paddingStart = st.paddingStart := by
  unfold scheduleMeasurement
  repeat' split
  all_goals rfl

@[simp]
theorem scheduleMeasurement_paddingEnd (h : Host) (st : ElemState) :
    (scheduleMeasurement h st).paddingEnd = st.paddingEnd := by
  unfold scheduleMeasurement
  repeat' split
  all_goals rfl

@[simp]
theorem scheduleMeasurement_scrollPaddingStart (h : Host) (st : ElemState) :
    (scheduleMeasurement h st).scrollPaddingStart = st.scrollPaddingStart := by
  unfold scheduleMeasurement
  repeat' split
  all_goals rfl

@[simp]
theorem scheduleMeasurement_scrollPaddingEnd (h : Host) (st : ElemState) :
    (scheduleMeasurement h st).scrollPaddingEnd = st.scrollPaddingEnd := by
  unfold scheduleMeasurement
  repeat' split
  all_goals rfl

@[simp]
theorem scheduleMeasurement_lightChildren (h : Host) (st : ElemState) :
    (scheduleMeasurement h st).lightChildren = st.lightChildren := by
  unfold scheduleMeasurement
  repeat' split
  all_goals rfl

@[simp]
theorem scheduleMeasurement_itemsContainerChildren (h : Host) (st : ElemState) :
    (scheduleMeasurement h st).itemsContainerChildren = st.itemsContainerChildren := by
  unfold scheduleMeasurement
  repeat' split
  all_goals rfl

@[simp]
theorem scheduleMeasurement_sizerWidth (h : Host) (st : ElemState) :
    (scheduleMeasurement h st).sizerWidth = st.sizerWidth := by
  unfold scheduleMeasurement
  repeat' split
  all_goals rfl

@[simp]
theorem scheduleMeasurement_sizerHeight (h : Host) (st : ElemState) :
    (scheduleMeasurement h st).sizerHeight = st.sizerHeight := by
  unfold scheduleMeasurement
  repeat' split
  all_goals rfl

@[simp]
theorem scheduleMeasurement_transformX (h : Host) (st : ElemState) :
    (scheduleMeasurement h st).transformX = st.transformX := by
  unfold scheduleMeasurement
  repeat' split
  all_goals rfl

@[simp]
theorem scheduleMeasurement_transformY (h : Host) (st : ElemState) :
    (scheduleMeasurement h st).transformY = st.transformY := by
  unfold scheduleMeasurement
  repeat' split
  all_goals rfl

@[simp]
theorem scheduleMeasurement_cleanupInvocations (h : Host) (st : ElemState) :
    (scheduleMeasurement h st).cleanupInvocations = st.cleanupInvocations := by
  unfold scheduleMeasurement
  repeat' split
  all_goals rfl

@[simp]
theorem scheduleMeasurement_willUpdateCount (h : Host) (st : ElemState) :
    (scheduleMeasurement h st).willUpdateCount = st.willUpdateCount := by
  unfold scheduleMeasurement
  repeat' split
  all_goals rfl

@[simp]
theorem scheduleMeasurement_setOptionsCount (h : Host) (st : ElemState) :
    (scheduleMeasurement h st).setOptionsCount = st.setOptionsCount := by
  unfold scheduleMeasurement
  repeat' split
  all_goals rfl

@[simp]
theorem scheduleMeasurement_measureCount (h : Host) (st : ElemState) :
    (scheduleMeasurement h st).measureCount = st.measureCount := by
  unfold scheduleMeasurement
  repeat' split
  all_goals rfl

@[simp]
theorem scheduleMeasurement_renderCount (h : Host) (st : ElemState) :
    (scheduleMeasurement h st).renderCount = st.renderCount := by
  unfold scheduleMeasurement
  repeat' split
  all_goals rfl

@[simp]
theorem render_virtualizer (h : Host) (st : ElemState) :
    (render h st).virtualizer = st.virtualizer := by
  unfold render
  repeat' split
  all_goals simp

@[simp]
theorem render_virtualizerCleanup (h : Host) (st : ElemState) :
    (render h st).virtualizerCleanup = st.virtualizerCleanup := by
  unfold render
  repeat' split
  all_goals simp

@[simp]
theorem render_scrollElement (h : Host) (st : ElemState) :
    (render h st).scrollElement = st.scrollElement := by
  unfold render
  repeat' split
  all_goals simp

@[simp]
theorem render_sizerElement (h : Host) (st : ElemState) :
    (render h st).sizerElement = st.sizerElement := by
  unfold render
  repeat' split
  all_goals simp

@[simp]
theorem render_itemsContainer (h : Host) (st : ElemState) :
    (render h st).itemsContainer = st.itemsContainer := by
  unfold render
  repeat' split
  all_goals simp

@[simp]
theorem render_orientation (h : Host) (st : ElemState) :
    (render h st).orientation = st.orientation := by
  unfold render
  repeat' split
  all_goals simp

@[simp]
theorem render_estimateSize (h : Host) (st : ElemState) :
    (render h st).estimateSize = st.estimateSize := by
  unfold render
  repeat' split
  all_goals simp

@[simp]
theorem render_overscan (h : Host) (st : ElemState) :
    (render h st).overscan = st.overscan := by
  unfold render
  repeat' split
  all_goals simp

@[simp]
theorem render_paddingStart (h : Host) (st : ElemState) :
    (render h st).paddingStart = st.paddingStart := by
  unfold render
  repeat' split
  all_goals simp

@[simp]
theorem render_paddingEnd (h : Host) (st : ElemState) :
    (render h st).paddingEnd = st.paddingEnd := by
  unfold render
  repeat' split
  all_goals simp

@[simp]
theorem render_scrollPaddingStart (h : Host) (st : ElemState) :
    (render h st).scrollPaddingStart = st.scrollPaddingStart := by
  unfold render
  repeat' split
  all_goals simp

@[simp]
theorem render_scrollPaddingEnd (h : Host) (st : ElemState) :
    (render h st).scrollPaddingEnd = st.scrollPaddingEnd := by
  unfold render
  repeat' split
  all_goals simp

@[simp]
theorem render_lightChildren (h : Host) (st : ElemState) :
    (render h st).lightChildren = st.lightChildren := by
  unfold render
  repeat' split
  all_goals simp

@[simp]
theorem render_cleanupInvocations (h : Host) (st : ElemState) :
    (render h st).cleanupInvocations = st.cleanupInvocations := by
  unfold render
  repeat' split
  all_goals simp

@[simp]
theorem render_willUpdateCount (h : Host) (st : ElemState) :
    (render h st).willUpdateCount = st.willUpdateCount := by
  unfold render
  repeat' split
  all_goals simp

@[simp]
theorem render_setOptionsCount (h : Host) (st : ElemState) :
    (render h st).setOptionsCount = st.setOptionsCount := by
  unfold render
  repeat' split
  all_goals simp

@[simp]
theorem render_measureCount (h : Host) (st : ElemState) :
    (render h st).measureCount = st.measureCount := by
  unfold render
  repeat' split
  all_goals simp

@[simp]
theorem updateVirtualizerOptions_virtualizer (h : Host) (st : ElemState) :
    (updateVirtualizerOptions h st).virtualizer = st.virtualizer := by
  unfold updateVirtualizerOptions
  repeat' split
  all_goals simp

@[simp]
theorem updateVirtualizerOptions_sizerElement (h : Host) (st : ElemState) :
    (updateVirtualizerOptions h st).sizerElement = st.sizerElement := by
  unfold updateVirtualizerOptions
  repeat' split
  all_goals simp

@[simp]
theorem updateVirtualizerOptions_itemsContainer (h : Host) (st : ElemState) :
    (updateVirtualizerOptions h st).itemsContainer = st.itemsContainer := by
  unfold updateVirtualizerOptions
  repeat' split
  all_goals simp

@[simp]
theorem updateVirtualizerOptions_orientation (h : Host) (st : ElemState) :
    (updateVirtualizerOptions h st).orientation = st.orientation := by
  unfold updateVirtualizerOptions
  repeat' split
  all_goals simp

@[simp]
theorem updateVirtualizerOptions_estimateSize (h : Host) (st : ElemState) :
    (updateVirtualizerOptions h st).estimateSize = st.estimateSize := by
  unfold updateVirtualizerOptions
  repeat' split
  all_goals simp

@[simp]
theorem updateVirtualizerOptions_overscan (h : Host) (st : ElemState) :
    (updateVirtualizerOptions h st).overscan = st.overscan := by
  unfold updateVirtualizerOptions
  repeat' split
  all_goals simp

@[simp]
theorem updateVirtualizerOptions_paddingStart (h : Host) (st : ElemState) :
    (updateVirtualizerOptions h st).paddingStart = st.paddingStart := by
  unfold updateVirtualizerOptions
  repeat' split
  all_goals simp

@[simp]
theorem updateVirtualizerOptions_paddingEnd (h : Host) (st : ElemState) :
    (updateVirtualizerOptions h st).paddingEnd = st.paddingEnd := by
  unfold updateVirtualizerOptions
  repeat' split
  all_goals simp

@[simp]
theorem updateVirtualizerOptions_scrollPaddingStart (h : Host) (st : ElemState) :
    (updateVirtualizerOptions h st).scrollPaddingStart = st.scrollPaddingStart := by
  unfold updateVirtualizerOptions
  repeat' split
  all_goals simp

@[simp]
theorem updateVirtualizerOptions_scrollPaddingEnd (h : Host) (st : ElemState) :
    (updateVirtualizerOptions h st).scrollPaddingEnd = st.scrollPaddingEnd := by
  unfold updateVirtualizerOptions
  repeat' split
  all_goals simp

@[simp]
theorem updateVirtualizerOptions_lightChildren (h : Host) (st : ElemState) :
    (updateVirtualizerOptions h st).lightChildren = st.lightChildren := by
  unfold updateVirtualizerOptions
  repeat' split
  all_goals simp

/-- Replacing an already-`none` virtualizer field is the identity. -/
theorem set_virtualizer_none_eq_self (st : ElemState)
    (hv : st.virtualizer = none) : { st with virtualizer := none } = st := by
  cases st
  simp_all

/-- The role of a node after `assignListitemRole` is always set. -/
theorem assignListitemRole_isSome (n : DNode) :
    (assignListitemRole n).role.isSome := by
  unfold assignListitemRole
  split
  · rfl
  · next hne => exact Option.isSome_iff_ne_none.mpr hne

/-- `assignListitemRole` preserves the node identity. -/
theorem assignListitemRole_nid (n : DNode) :
    (assignListitemRole n).nid = n.nid := by
  unfold assignListitemRole
  split <;> rfl

/-- Characterization of the `#captureChildren` loop: starting from a state
whose light-DOM children are exactly the walked snapshot, the loop
collects the role-adjusted element nodes in order and empties the light
DOM. -/
theorem captureChildren_fold (nodes : List DNode) :
    ∀ (acc0 : List DNode) (s : ElemState), s.lightChildren = nodes →
      (nodes.foldl captureStep (acc0, s)).1
        = acc0 ++ (nodes.filter (fun n => n.isElem)).map assignListitemRole ∧
      (nodes.foldl captureStep (acc0, s)).2.lightChildren = [] := by
  induction nodes with
  | nil =>
    intro acc0 s hs
    exact ⟨by simp, by simpa using hs⟩
  | cons n ns ih =>
    intro acc0 s hs
    have hstep : captureStep (acc0, s) n
        = (acc0 ++ (if n.isElem then [assignListitemRole n] else []),
           { s with lightChildren := ns }) := by
      unfold captureStep
      rw [hs]
      simp only [removeFirstByNid, if_pos rfl]
      split <;> simp
    rw [List.foldl_cons, hstep]
    obtain ⟨h1, h2⟩ :=
      ih (acc0 ++ (if n.isElem then [assignListitemRole n] else []))
        { s with lightChildren := ns } rfl
    refine ⟨?_, h2⟩
    rw [h1]
    cases hne : n.isElem <;> simp [hne, List.filter_cons]

/-- `nidsOf` distributes over append. -/
theorem nidsOf_append (l1 l2 : List DNode) :
    nidsOf (l1 ++ l2) = nidsOf l1 ++ nidsOf l2 := by
  simp [nidsOf]

/-- Writing back a node with the same identity leaves `nidsOf` unchanged. -/
theorem nidsOf_set (l : List DNode) :
    ∀ (i : Nat) (x it : DNode), l[i]? = some it → x.nid = it.nid →
      nidsOf (l.set i x) = nidsOf l := by
  induction l with
  | nil => intro i x it hg _; simp at hg
  | cons hd tl ih =>
    intro i x it hg hn
    cases i with
    | zero =>
      simp only [List.getElem?_cons_zero, Option.some.injEq] at hg
      subst hg
      simp [nidsOf, List.set, hn]
    | succ j =>
      simp only [List.getElem?_cons_succ] at hg
      simp only [List.set, nidsOf, List.map_cons]
      rw [show List.map (fun n => n.nid) (tl.set j x) = nidsOf (tl.set j x) from rfl,
        ih j x it hg hn]
      rfl

/-- ARIA stamping keeps the node identity. -/
theorem stampAria_nid (len idx : Nat) (it : DNode) :
    (stampAria len idx it).nid = it.nid := rfl

/-- One render-loop step leaves the registry identities unchanged. -/
theorem nidsOf_renderStep (acc : List DNode × List Nat) (vi : VirtualItem) :
    nidsOf (renderStep acc vi).1 = nidsOf acc.1 := by
  unfold renderStep
  cases hq : acc.1[vi.index]? with
  | none => rfl
  | some it => exact nidsOf_set acc.1 vi.index _ it hq (stampAria_nid _ _ it)

/-- The whole render loop leaves the registry identities unchanged. -/
theorem nidsOf_renderFold (vis : List VirtualItem) :
    ∀ acc : List DNode × List Nat,
      nidsOf (vis.foldl renderStep acc).1 = nidsOf acc.1 := by
  induction vis with
  | nil => intro acc; rfl
  | cons u us ih =>
    intro acc
    rw [List.foldl_cons, ih (renderStep acc u), nidsOf_renderStep]

/-- A render pass leaves the registry identities unchanged (it only stamps
attributes in place). -/
theorem nidsOf_render (h : Host) (st : ElemState) :
    nidsOf (render h st).items = nidsOf st.items := by
  unfold render
  repeat' split
  all_goals simp [nidsOf_renderFold]

/-- An option push leaves the registry identities unchanged. -/
theorem nidsOf_update (h : Host) (st : ElemState) :
    nidsOf (updateVirtualizerOptions h st).items = nidsOf st.items := by
  unfold updateVirtualizerOptions
  split <;> simp [nidsOf_render]

/-- Removal processing never touches the collected additions. -/
theorem additions_removedNodeStep (a : ReconcileAcc) (n : DNode) :
    (removedNodeStep a n).additions = a.additions := by
  unfold removedNodeStep
  split <;> rfl

/-- Folding removal processing never touches the collected additions. -/
theorem additions_removedFold (ns : List DNode) :
    ∀ a : ReconcileAcc, (ns.foldl removedNodeStep a).additions = a.additions := by
  induction ns with
  | nil => intro a; rfl
  | cons n ns ih =>
    intro a
    rw [List.foldl_cons, ih, additions_removedNodeStep]

/-- Addition collection only appends: membership is preserved. -/
theorem mem_additions_addedNodeStep (a : ReconcileAcc) (n x : DNode)
    (hx : x ∈ a.additions) : x ∈ (addedNodeStep a n).additions := by
  unfold addedNodeStep
  repeat' split
  all_goals simp [hx]

/-- An added element node lands in the collected additions. -/
theorem self_mem_addedNodeStep (a : ReconcileAcc) (n : DNode)
    (he : n.isElem = true) : n ∈ (addedNodeStep a n).additions := by
  unfold addedNodeStep
  rw [if_pos he]
  simp

/-- Folding addition collection preserves membership. -/
theorem mem_addedFold (ns : List DNode) :
    ∀ (a : ReconcileAcc) (x : DNode), x ∈ a.additions →
      x ∈ (ns.foldl addedNodeStep a).additions := by
  induction ns with
  | nil => intro a x hx; exact hx
  | cons n ns ih =>
    intro a x hx
    exact ih _ x (mem_additions_addedNodeStep a n x hx)

/-- An element node of the added list ends in the collected additions. -/
theorem mem_addedFold_of_mem (ns : List DNode) :
    ∀ (a : ReconcileAcc) (n : DNode), n ∈ ns → n.isElem = true →
      n ∈ (ns.foldl addedNodeStep a).additions := by
  induction ns with
  | nil => intro a n hn _; simp at hn
  | cons m ms ih =>
    intro a n hn he
    rcases List.mem_cons.mp hn with heq | htl
    · subst heq
      exact mem_addedFold ms _ n (self_mem_addedNodeStep a n he)
    · exact ih _ n htl he

/-- Processing one mutation record preserves collected additions. -/
theorem mem_additions_process (a : ReconcileAcc) (m : MutationRecord)
    (x : DNode) (hx : x ∈ a.additions) :
    x ∈ (processMutationRecord a m).additions := by
  unfold processMutationRecord
  rw [additions_removedFold]
  exact mem_addedFold _ _ x hx

/-- An element among a record's added nodes ends in the collected
additions of that record's processing. -/
theorem mem_additions_process_of_added (a : ReconcileAcc) (m : MutationRecord)
    (n : DNode) (hn : n ∈ m.addedNodes) (he : n.isElem = true) :
    n ∈ (processMutationRecord a m).additions := by
  unfold processMutationRecord
  rw [additions_removedFold]
  exact mem_addedFold_of_mem _ _ n hn he

/-- Folding record processing preserves collected additions. -/
theorem mem_additions_mutsFold_pres (muts : List MutationRecord) :
    ∀ (a : ReconcileAcc) (x : DNode), x ∈ a.additions →
      x ∈ (muts.foldl processMutationRecord a).additions := by
  induction muts with
  | nil => intro a x hx; exact hx
  | cons m ms ih =>
    intro a x hx
    exact ih _ x (mem_additions_process a m x hx)

/-- An element added anywhere in the batch ends in the collected
additions of the whole batch walk. -/
theorem mem_additions_mutsFold (muts : List MutationRecord) :
    ∀ (a : ReconcileAcc) (e : DNode) (m : MutationRecord), m ∈ muts →
      e ∈ m.addedNodes → e.isElem = true →
      e ∈ (muts.foldl processMutationRecord a).additions := by
  induction muts with
  | nil => intro a e m hm _ _; simp at hm
  | cons m0 ms ih =>
    intro a e m hm hadd he
    rcases List.mem_cons.mp hm with heq | htl
    · subst heq
      exact mem_additions_mutsFold_pres ms _ e
        (mem_additions_process_of_added a m e hadd he)
    · exact ih _ e m htl hadd he

/-- The deferred addition phase appends exactly the collected identities. -/
theorem nidsOf_pushFold (adds : List DNode) :
    ∀ s : ElemState,
      nidsOf ((adds.foldl pushAdditionStep s).items)
        = nidsOf s.items ++ adds.map (fun n => n.nid) := by
  induction adds with
  | nil => intro s; simp
  | cons n ns ih =>
    intro s
    rw [List.foldl_cons, ih]
    have hone : nidsOf ((pushAdditionStep s n).items) = nidsOf s.items ++ [n.nid] := by
      simp only [pushAdditionStep]
      split <;> simp [nidsOf_append, nidsOf, assignListitemRole_nid]
    rw [hone]
    simp

/-- One render-loop step preserves the registry length. -/
theorem renderStep_length (acc : List DNode × List Nat) (vi : VirtualItem) :
    (renderStep acc vi).1.length = acc.1.length := by
  unfold renderStep
  cases acc.1[vi.index]? <;> simp

/-- The whole render loop preserves the registry length. -/
theorem renderFold_length (vis : List VirtualItem) :
    ∀ acc : List DNode × List Nat,
      (vis.foldl renderStep acc).1.length = acc.1.length := by
  induction vis with
  | nil => intro acc; rfl
  | cons u us ih =>
    intro acc
    rw [List.foldl_cons, ih, renderStep_length]

/-- The fragment built by the render loop lists, in visible order, the
identities of the registry items found at each visible index; indices
without a registry item contribute nothing. -/
theorem renderFold_frag (items0 : List DNode) (vis : List VirtualItem) :
    ∀ acc : List DNode × List Nat, nidsOf acc.1 = nidsOf items0 →
      (vis.foldl renderStep acc).2
        = acc.2 ++ vis.filterMap (fun vi => (items0[vi.index]?).map (fun it => it.nid)) := by
  induction vis with
  | nil => intro acc _; simp
  | cons u us ih =>
    intro acc hn
    have hmap : (acc.1[u.index]?).map (fun it => it.nid)
        = (items0[u.index]?).map (fun it => it.nid) := by
      have hcong := congrArg (fun l => l[u.index]?) hn
      simpa [nidsOf, List.getElem?_map] using hcong
    rw [List.foldl_cons]
    cases hq : acc.1[u.index]? with
    | none =>
      have h0 : items0[u.index]? = none := by
        rw [hq] at hmap
        exact Option.map_eq_none'.mp hmap.symm
      have hstep : renderStep acc u = acc := by
        unfold renderStep
        rw [hq]
      rw [hstep, ih acc hn, List.filterMap_cons]
      simp [h0]
    | some it =>
      have hsome : (items0[u.index]?).map (fun jt => jt.nid) = some it.nid := by
        rw [← hmap, hq]
        rfl
      have hstep : renderStep acc u
          = (acc.1.set u.index (stampAria acc.1.length u.index it),
             acc.2 ++ [it.nid]) := by
        unfold renderStep
        rw [hq]
      have hn2 : nidsOf (acc.1.set u.index (stampAria acc.1.length u.index it))
          = nidsOf items0 := by
        rw [nidsOf_set acc.1 u.index _ it hq (stampAria_nid _ _ it)]
        exact hn
      rw [hstep, ih _ hn2, List.filterMap_cons]
      simp [hsome]

/-- `StampedAt` implies the decidable check. -/
theorem stampedAt_ok (l : List DNode) (len i : Nat) (h : StampedAt l len i) :
    stampedOK l len i = true := by
  obtain ⟨it, hg, h1, h2⟩ := h
  simp [stampedOK, hg, h1, h2]

/-- Processing a virtual item whose index is in range stamps the ARIA
attributes at that index. -/
theorem renderStep_stamps (acc : List DNode × List Nat) (vi : VirtualItem)
    (hlt : vi.index < acc.1.length) :
    StampedAt (renderStep acc vi).1 acc.1.length vi.index := by
  obtain ⟨it, hit⟩ : ∃ it, acc.1[vi.index]? = some it :=
    ⟨_, List.getElem?_eq_getElem hlt⟩
  unfold renderStep
  rw [hit]
  exact ⟨stampAria acc.1.length vi.index it,
    List.getElem?_set_eq_of_lt _ hlt, rfl, rfl⟩

/-- Later render-loop steps keep an already-stamped index stamped: a step
either writes elsewhere or rewrites the very same attribute values. -/
theorem renderStep_preserves_stamped (acc : List DNode × List Nat)
    (vi : VirtualItem) (len i : Nat) (hlen : acc.1.length = len)
    (hst : StampedAt acc.1 len i) :
    StampedAt (renderStep acc vi).1 len i := by
  obtain ⟨it, hg, h1, h2⟩ := hst
  unfold renderStep
  cases hq : acc.1[vi.index]? with
  | none => exact ⟨it, hg, h1, h2⟩
  | some jt =>
    by_cases hij : vi.index = i
    · subst hij
      have hlt : vi.index < acc.1.length := by
        rw [List.getElem?_eq_some] at hq
        exact hq.1
      refine ⟨stampAria acc.1.length vi.index jt,
        List.getElem?_set_eq_of_lt _ hlt, ?_, rfl⟩
      simp [stampAria, hlen]
    · refine ⟨it, ?_, h1, h2⟩
      rw [List.getElem?_set_ne hij]
      exact hg

/-- The render loop keeps an already-stamped index stamped. -/
theorem renderFold_preserves_stamped (vis : List VirtualItem) :
    ∀ (acc : List DNode × List Nat) (len i : Nat), acc.1.length = len →
      StampedAt acc.1 len i → StampedAt (vis.foldl renderStep acc).1 len i := by
  induction vis with
  | nil => intro acc len i _ hst; exact hst
  | cons u us ih =>
    intro acc len i hlen hst
    rw [List.foldl_cons]
    exact ih _ len i (by rw [renderStep_length, hlen])
      (renderStep_preserves_stamped acc u len i hlen hst)

/-- Every visible index that has a registry item is stamped after the
render loop. -/
theorem renderFold_stamps (vis : List VirtualItem) :
    ∀ (acc : List DNode × List Nat) (len : Nat), acc.1.length = len →
      ∀ vi ∈ vis, vi.index < len →
        StampedAt (vis.foldl renderStep acc).1 len vi.index := by
  induction vis with
  | nil => intro acc len _ vi hvi _; simp at hvi
  | cons u us ih =>
    intro acc len hlen vi hvi hlt
    rw [List.foldl_cons]
    rcases List.mem_cons.mp hvi with heq | htl
    · subst heq
      have hlt2 : vi.index < acc.1.length := by
        rw [hlen]
        exact hlt
      have h1 : StampedAt (renderStep acc vi).1 len vi.index :=
        hlen ▸ renderStep_stamps acc vi hlt2
      exact renderFold_preserves_stamped us _ len vi.index
        (by rw [renderStep_length, hlen]) h1
    · exact ih _ len (by rw [renderStep_length, hlen]) vi htl hlt

/-! ### Claims -/

/-- C3: evaluation of the key function at the failing input.  For a
registry holding one element without an `id` attribute, `getItemKey`
returns the empty string (the DOM `id` property of an id-less element),
not the numeric index `0` that the claim requires: `item?.id` is never
nullish for an existing item, so the `?? index` fallback is dead except
for out-of-range indices. -/
theorem getItemKey_no_id_is_empty_string :
    getItemKey [itemB] 0 = ItemKey.str ("") := rfl

/-- C9: delivering an attribute-change notification whose old value equals
its new value (`oldValue === newValue`) returns before any work: no option
push, no re-measurement, no render — the entire element state, ghost
effect counters included, is unchanged. -/
theorem attributeChangedCallback_same_value_noop (h : Host) (name : String)
    (v : Option String) (st : ElemState) :
    attributeChangedCallback h name v v st = st := by
  simp [attributeChangedCallback]

/-- C10: a change notification from an engine instance that is not the
currently retained one (`instance === this.#virtualizer` fails) triggers
no render pass and leaves the whole element state unchanged. -/
theorem onChange_stale_instance_noop (h : Host) (inst : Engine)
    (st : ElemState) (hne : st.virtualizer ≠ some inst) :
    onChange h inst st = st := by
  simp [onChange, hne]

/-- Witness for C10 at a stale instance `engB` while `engA` is retained. -/
theorem onChange_stale_instance_noop_witness :
    baseState.virtualizer ≠ some engB ∧
    onChange hostBoth engB baseState = baseState :=
  ⟨by decide, onChange_stale_instance_noop hostBoth engB baseState (by decide)⟩

/-- C7: with the cancel primitive available and a cleanup handle retained,
teardown leaves no pending frame callback, invokes the cleanup handle
exactly once, and an immediate second teardown changes nothing further
(the function is total, so no call can throw). -/
theorem teardownVirtualizer_once_then_noop (h : Host) (st : ElemState)
    (hcaf : h.cafAvailable = true) (hclean : st.virtualizerCleanup = true) :
    (teardownVirtualizer h st).rafId = none ∧
    (teardownVirtualizer h st).cleanupInvocations = st.cleanupInvocations + 1 ∧
    teardownVirtualizer h (teardownVirtualizer h st) = teardownVirtualizer h st := by
  cases hrid : st.rafId with
  | none =>
    refine ⟨?_, ?_, ?_⟩ <;>
      simp [teardownVirtualizer, hrid, hclean, set_virtualizer_none_eq_self]
  | some k =>
    refine ⟨?_, ?_, ?_⟩ <;>
      simp [teardownVirtualizer, hrid, hcaf, hclean, set_virtualizer_none_eq_self]

/-- Witness for C7: teardown of a mounted state with a pending frame
callback. -/
theorem teardownVirtualizer_once_then_noop_witness :
    hostBoth.cafAvailable = true ∧
    ({ baseState with rafId := some 7 } : ElemState).virtualizerCleanup = true ∧
    ((teardownVirtualizer hostBoth { baseState with rafId := some 7 }).rafId = none ∧
     (teardownVirtualizer hostBoth { baseState with rafId := some 7 }).cleanupInvocations
       = ({ baseState with rafId := some 7 } : ElemState).cleanupInvocations + 1 ∧
     teardownVirtualizer hostBoth
         (teardownVirtualizer hostBoth { baseState with rafId := some 7 })
       = teardownVirtualizer hostBoth { baseState with rafId := some 7 }) :=
  ⟨rfl, rfl,
   teardownVirtualizer_once_then_noop hostBoth { baseState with rafId := some 7 } rfl rfl⟩

/-- C6: for every numeric attribute, a new value whose `Number()`
conversion is not finite makes the effective value the attribute's default
(48 for estimate-size, 2 for overscan, 0 for the four paddings), while a
finite negative overscan value is clamped to 0 rather than reverting to
the default or the prior value. -/
theorem numericAttribute_invalid_input_fallbacks (h : Host) (st : ElemState)
    (old : Option String) (s1 s2 : String) (q : Rat)
    (h1 : old ≠ some s1) (h2 : parseJSNumber s1 = none)
    (h3 : old ≠ some s2) (h4 : parseJSNumber s2 = some q) (h5 : q < 0) :
    (attributeChangedCallback h ("estimate-size") old (some s1) st).estimateSize = 48 ∧
    (attributeChangedCallback h ("overscan") old (some s1) st).overscan = 2 ∧
    (attributeChangedCallback h ("padding-start") old (some s1) st).paddingStart = 0 ∧
    (attributeChangedCallback h ("padding-end") old (some s1) st).paddingEnd = 0 ∧
    (attributeChangedCallback h ("scroll-padding-start") old (some s1) st).scrollPaddingStart = 0 ∧
    (attributeChangedCallback h ("scroll-padding-end") old (some s1) st).scrollPaddingEnd = 0 ∧
    (attributeChangedCallback h ("overscan") old (some s2) st).overscan = 0 := by
  have hmax : (max 0 (Int.floor q) : Int) = 0 :=
    max_eq_left (Int.floor_nonpos h5.le)
  refine ⟨?_, ?_, ?_, ?_, ?_, ?_, ?_⟩ <;>
    simp [attributeChangedCallback, NUMBER_ATTRIBUTES, fallbackForAttribute,
      h1, h2, h3, h4, hmax]

/-- Witness for C6 with the invalid string `"foo"` and the finite negative
string `"-5"`. -/
theorem numericAttribute_invalid_input_fallbacks_witness :
    (none : Option String) ≠ some ("foo") ∧
    parseJSNumber ("foo") = none ∧
    (none : Option String) ≠ some ("-5") ∧
    parseJSNumber ("-5") = some (-5 : Rat) ∧
    (-5 : Rat) < 0 ∧
    ((attributeChangedCallback hostBoth ("estimate-size") none (some ("foo")) baseState).estimateSize = 48 ∧
     (attributeChangedCallback hostBoth ("overscan") none (some ("foo")) baseState).overscan = 2 ∧
     (attributeChangedCallback hostBoth ("padding-start") none (some ("foo")) baseState).paddingStart = 0 ∧
     (attributeChangedCallback hostBoth ("padding-end") none (some ("foo")) baseState).paddingEnd = 0 ∧
     (attributeChangedCallback hostBoth ("scroll-padding-start") none (some ("foo")) baseState).scrollPaddingStart = 0 ∧
     (attributeChangedCallback hostBoth ("scroll-padding-end") none (some ("foo")) baseState).scrollPaddingEnd = 0 ∧
     (attributeChangedCallback hostBoth ("overscan") none (some ("-5")) baseState).overscan = 0) :=
  ⟨by decide, by decide, by decide, by decide, by decide,
   numericAttribute_invalid_input_fallbacks hostBoth baseState none ("foo") ("-5")
     (-5 : Rat) (by decide) (by decide) (by decide) (by decide) (by decide)⟩

/-- C8: a render pass writes the engine's total extent to the sizer's
active-axis extent with the cross axis at `'100%'`, and translates the
items container by the first visible item's start offset on the active
axis with the inactive axis fixed at 0; the active axis is chosen from the
element's orientation in the same pass, and an empty window translates by
zero. -/
theorem render_layout_by_orientation (h : Host) (st : ElemState) (v : Engine)
    (hv : st.virtualizer = some v) (hic : st.itemsContainer = true)
    (hse : st.sizerElement = true) :
    ((render h st).sizerWidth, (render h st).sizerHeight,
     (render h st).transformX, (render h st).transformY)
      = (match st.orientation with
         | Orientation.horizontal =>
           (Extent.px v.totalSize, Extent.percent100,
            firstStartOf v.virtualItems, (0 : Rat))
         | Orientation.vertical =>
           (Extent.percent100, Extent.px v.totalSize,
            (0 : Rat), firstStartOf v.virtualItems)) ∧
    firstStartOf ([] : List VirtualItem) = (0 : Rat) := by
  refine ⟨?_, rfl⟩
  unfold render
  rw [hv]
  cases ho : st.orientation <;>
    simp [hic, hse, applySizer, applyTransform, ho]

/-- Witness for C8 on the vertical base state with engine `engA`. -/
theorem render_layout_by_orientation_witness :
    baseState.virtualizer = some engA ∧
    baseState.itemsContainer = true ∧
    baseState.sizerElement = true ∧
    (((render hostBoth baseState).sizerWidth, (render hostBoth baseState).sizerHeight,
      (render hostBoth baseState).transformX, (render hostBoth baseState).transformY)
       = (match baseState.orientation with
          | Orientation.horizontal =>
            (Extent.px engA.totalSize, Extent.percent100,
             firstStartOf engA.virtualItems, (0 : Rat))
          | Orientation.vertical =>
            (Extent.percent100, Extent.px engA.totalSize,
             (0 : Rat), firstStartOf engA.virtualItems)) ∧
     firstStartOf ([] : List VirtualItem) = (0 : Rat)) :=
  ⟨rfl, rfl, rfl,
   render_layout_by_orientation hostBoth baseState engA rfl rfl rfl⟩

/-- C4, counterexample: with the paint primitive unavailable the microtask
fallback never cancels, so two consecutive render passes leave two pending
measurement callbacks — the at-most-one-pending invariant fails in the
fallback, contrary to the claim. -/
theorem microtask_fallback_two_pending :
    pendingMeasurements (render hostNone (render hostNone baseState)) = 2 := by
  decide

/-- C4, amended: when the paint-scheduling primitive is available (and no
stale fallback microtasks are queued), a render pass leaves at most one
pending measurement callback — a new schedule cancels the previously
pending frame callback first — and queues no microtask. -/
theorem render_at_most_one_pending_with_raf (h : Host) (st : ElemState)
    (hraf : h.rafAvailable = true) (hmt : st.microtasksPending = 0) :
    pendingMeasurements (render h st) ≤ 1 ∧
    (render h st).microtasksPending = 0 := by
  unfold render
  cases hv : st.virtualizer with
  | none =>
    cases hr : st.rafId <;> simp [pendingMeasurements, hmt, hr]
  | some v =>
    cases hic : st.itemsContainer with
    | false =>
      cases hr : st.rafId <;> simp [pendingMeasurements, hmt, hr, hic]
    | true =>
      cases hse : st.sizerElement with
      | false =>
        cases hr : st.rafId <;> simp [pendingMeasurements, hmt, hr, hic, hse]
      | true =>
        cases ho : st.orientation <;>
          cases hr : st.rafId <;>
            simp [pendingMeasurements, scheduleMeasurement, applySizer,
              applyTransform, hraf, hmt, hr, hic, hse, hv, ho]

/-- Witness for C4's amended theorem on a state with a pending frame
callback. -/
theorem render_at_most_one_pending_with_raf_witness :
    hostBoth.rafAvailable = true ∧
    ({ baseState with rafId := some 3 } : ElemState).microtasksPending = 0 ∧
    (pendingMeasurements (render hostBoth { baseState with rafId := some 3 }) ≤ 1 ∧
     (render hostBoth { baseState with rafId := some 3 }).microtasksPending = 0) :=
  ⟨rfl, rfl,
   render_at_most_one_pending_with_raf hostBoth { baseState with rafId := some 3 } rfl rfl⟩

/-- C5: first-activation capture keeps exactly the element children, in
document order, as the registry (each one's role defaulting to
`listitem`); non-element child nodes are never retained anywhere; and the
external container ends with zero children. -/
theorem captureChildren_spec (st : ElemState) :
    (captureChildren st).items
      = (st.lightChildren.filter (fun n => n.isElem)).map assignListitemRole ∧
    (captureChildren st).lightChildren = [] ∧
    ∀ it ∈ (captureChildren st).items, it.role.isSome := by
  obtain ⟨h1, h2⟩ := captureChildren_fold st.lightChildren [] st rfl
  refine ⟨?_, ?_, ?_⟩
  · simp [captureChildren, h1]
  · simp [captureChildren, h2]
  · intro it hit
    simp only [captureChildren] at hit
    rw [h1] at hit
    simp only [List.nil_append, List.mem_map] at hit
    obtain ⟨n, _, hn⟩ := hit
    rw [← hn]
    exact assignListitemRole_isSome n

/-- C2, counterexample: a batch whose records add and then remove the same
previously untracked element leaves that element IN the registry — the
claim's "nets out to removal" is false: removals are matched against the
registry before the batch's collected additions are appended, so the
removal finds nothing and the deferred addition still lands. -/
theorem add_remove_same_batch_still_registered :
    nidsOf ((handleLightDomMutations hostBoth addRemoveBatch
      { baseState with items := [] }).items) = [99] := by
  decide

/-- C2, amended: an element appearing among a batch's added nodes is,
after the reconciler processes the batch, present in the registry — even
when the same element also appears among the removed nodes of the batch.
Removal splices run against the registry as it stands before the batch's
additions are appended, so add-then-remove within one batch nets to an
addition, not to a removal. -/
theorem added_element_ends_in_registry (h : Host) (muts : List MutationRecord)
    (st : ElemState) (e : DNode) (m : MutationRecord)
    (he : e.isElem = true) (hmm : m ∈ muts) (hadd : e ∈ m.addedNodes) :
    e.nid ∈ nidsOf ((handleLightDomMutations h muts st).items) := by
  have hemem : e ∈ (muts.foldl processMutationRecord
      { additions := [], changed := false, state := st }).additions :=
    mem_additions_mutsFold muts _ e m hmm hadd he
  have hpos : (muts.foldl processMutationRecord
      { additions := [], changed := false, state := st }).additions.length > 0 :=
    List.length_pos.mpr (List.ne_nil_of_mem hemem)
  simp only [handleLightDomMutations]
  rw [if_pos hpos]
  simp only [if_true]
  rw [nidsOf_update, nidsOf_pushFold]
  exact List.mem_append.mpr (Or.inr (List.mem_map_of_mem _ hemem))

/-- Witness for C2's amended theorem on the concrete add-then-remove
batch. -/
theorem added_element_ends_in_registry_witness :
    freshItem.isElem = true ∧ addRec ∈ addRemoveBatch ∧
    freshItem ∈ addRec.addedNodes ∧
    freshItem.nid ∈ nidsOf ((handleLightDomMutations hostBoth addRemoveBatch
      { baseState with items := [] }).items) :=
  ⟨rfl, by decide, by decide,
   added_element_ends_in_registry hostBoth addRemoveBatch
     { baseState with items := [] } freshItem addRec rfl (by decide) (by decide)⟩

/-- C1: a render pass replaces the items container's children with, in
visible order, exactly the registry items found at each visible logical
index (indices with no registry item are skipped), and every such
rendered index is stamped with `aria-setsize` equal to the registry
length and `aria-posinset` equal to its logical index + 1. -/
theorem render_stamps_aria (h : Host) (st : ElemState) (v : Engine)
    (hv : st.virtualizer = some v) (hic : st.itemsContainer = true)
    (hse : st.sizerElement = true) :
    (render h st).itemsContainerChildren
      = v.virtualItems.filterMap
          (fun vi => (st.items[vi.index]?).map (fun it => it.nid)) ∧
    (v.virtualItems.all (fun vi =>
      if vi.index < st.items.length then
        stampedOK (render h st).items st.items.length vi.index
      else true)) = true := by
  have hchild : (render h st).itemsContainerChildren
      = (v.virtualItems.foldl renderStep (st.items, [])).2 := by
    unfold render
    rw [hv]
    simp [hic, hse]
  have hitems : (render h st).items
      = (v.virtualItems.foldl renderStep (st.items, [])).1 := by
    unfold render
    rw [hv]
    simp [hic, hse]
  constructor
  · rw [hchild, renderFold_frag st.items v.virtualItems (st.items, []) rfl]
    simp
  · rw [List.all_eq_true]
    intro vi hvi
    by_cases hlt : vi.index < st.items.length
    · rw [if_pos hlt, hitems]
      exact stampedAt_ok _ _ _
        (renderFold_stamps v.virtualItems (st.items, []) st.items.length rfl vi hvi hlt)
    · rw [if_neg hlt]

/-- Witness for C1 on the two-item base state and engine `engA`. -/
theorem render_stamps_aria_witness :
    baseState.virtualizer = some engA ∧
    baseState.itemsContainer = true ∧
    baseState.sizerElement = true ∧
    ((render hostBoth baseState).itemsContainerChildren
       = engA.virtualItems.filterMap
           (fun vi => (baseState.items[vi.index]?).map (fun it => it.nid)) ∧
     (engA.virtualItems.all (fun vi =>
       if vi.index < baseState.items.length then
         stampedOK (render hostBoth baseState).items baseState.items.length vi.index
       else true)) = true) :=
  ⟨rfl, rfl, rfl, render_stamps_aria hostBoth baseState engA rfl rfl rfl⟩

end VirtualList
